import Mathlib

/-!
# Verification of the Calendly OAuth token lifecycle
  (`src/utils/calendly_auth.py`)

A shallow embedding of the token store and refresh manager. Python token
records are JSON objects: we model them as association lists from string
keys to JSON scalar values (`JDict`), with Python's lookup (`dict.get`),
membership (`in`), assignment (`d[k] = v`) and truthiness semantics made
explicit. Effectful functions (`refresh_access_token`,
`get_valid_access_token`) are embedded as pure functions over an explicit
store (the contents of `data/calendly_tokens.json`, or `none` when the
file is absent), an environment (configured credentials and the current
clock `int(time.time())`), and an HTTP oracle giving the response the
authorization server would return to the single outbound POST; each
outcome records the result, the number of network calls issued, the
number of times the refresh routine was entered, and the store contents
after the call.
-/

set_option autoImplicit false

namespace CalendlyAuth

/-- A JSON scalar value as stored in a token record. Records in the source
hold strings (`access_token`, `refresh_token`), integers (`created_at`,
`expires_in`), booleans (in `get_connection_status` output) and possibly
JSON `null`. -/
inductive JVal where
  | str (s : String)
  | int (n : Int)
  | bool (b : Bool)
  | null
deriving DecidableEq, Repr

/-- A token record / JSON object: an association list with first-match
lookup (Python dicts have unique keys; all operations below use the first
binding of a key, so duplicate keys behave as if only the first existed). -/
abbrev JDict := List (String × JVal)

/-- `d.get(k)` — Python `dict.get`, `None` when the key is absent. -/
def JDict.get? (d : JDict) (k : String) : Option JVal :=
  (d.find? (fun p => p.1 == k)).map Prod.snd

/-- `k in d` — Python key membership. -/
def JDict.hasKey (d : JDict) (k : String) : Bool :=
  d.any (fun p => p.1 == k)

/-- `d[k] = v` — Python item assignment: overwrite the binding of `k` in
place if present (keys are unique, so the first binding is the binding),
or append a new binding at the end. -/
def JDict.set : JDict → String → JVal → JDict
  | [], k, v => [(k, v)]
  | p :: rest, k, v =>
      if p.1 == k then (k, v) :: rest else p :: JDict.set rest k v

/-- `d.get(k, dflt)` — Python `dict.get` with a default. -/
def JDict.getD (d : JDict) (k : String) (dflt : JVal) : JVal :=
  (d.get? k).getD dflt

/-- Python truthiness of a JSON scalar: `""`, `0`, `False` and `None` are
falsy, everything else truthy. -/
def JVal.truthy : JVal → Bool
  | .str s => s ≠ ""
  | .int n => n ≠ 0
  | .bool b => b
  | .null => false

/-- Python truthiness of `d.get(k)`: falsy when the key is absent (`None`)
or bound to a falsy value. -/
def truthyOpt : Option JVal → Bool
  | none => false
  | some v => v.truthy

/-- Python truthiness of a dict: falsy exactly when empty. -/
def JDict.truthy (d : JDict) : Bool := !d.isEmpty

/-- `EXPIRY_BUFFER_SECONDS = 300` (src/utils/calendly_auth.py line 20). -/
def EXPIRY_BUFFER_SECONDS : Int := 300

/-- `is_token_expired` (src/utils/calendly_auth.py lines 49-75), with the
call to `int(time.time())` made an explicit argument `current_time`.
Mirrors the source line by line: `if not tokens: return True`;
`if not created_at or not expires_in: return False`; otherwise
`current_time >= (created_at + expires_in - EXPIRY_BUFFER_SECONDS)`.
The arithmetic branch is reached only when both fields are truthy; the
source performs Python `+`/`-` there, embedded for integer-valued fields
(the only type the record schema gives them; a non-integer truthy value
would raise `TypeError` in the source and is outside this embedding). -/
def is_token_expired (current_time : Int) (tokens : JDict) : Bool :=
  if !tokens.truthy then true
  else
    let created_at := tokens.get? "created_at"
    let expires_in := tokens.get? "expires_in"
    if !truthyOpt created_at || !truthyOpt expires_in then false
    else
      match created_at, expires_in with
      | some (.int c), some (.int e) =>
          current_time ≥ c + e - EXPIRY_BUFFER_SECONDS
      | _, _ => false

/-- `save_tokens` (src/utils/calendly_auth.py lines 23-32), with
`int(time.time())` made the explicit argument `now`. The source mutates
the caller's dict in place (`tokens["created_at"] = int(time.time())`)
and then serializes that same object to the file; the embedding returns
the pair (caller's mapping after the call, file contents written), which
the source makes identical. -/
def save_tokens (now : Int) (tokens : JDict) : JDict × JDict :=
  let t := if tokens.hasKey "created_at" then tokens
           else tokens.set "created_at" (.int now)
  (t, t)

/-- `load_tokens` (src/utils/calendly_auth.py lines 35-40): returns the
parsed file contents, or `None` when the file does not exist. The store
argument is the current file contents. -/
def load_tokens (store : Option JDict) : Option JDict := store

/-- The failure conditions raised by the module. The source raises
`RuntimeError` at four distinct sites with distinct messages; two further
constructors stand for the Python-level exceptions that escape the module
(`response.json()` failing to decode on the success path, and the
`tokens["access_token"]` `KeyError`). Each constructor corresponds to one
raise site. -/
inductive AuthErr where
  | notConnected (msg : String)
  | reconnectRequired (msg : String)
  | configError (msg : String)
  | refreshFailed (msg : String)
  | jsonDecodeError
  | keyError (k : String)
deriving DecidableEq, Repr

/-- Configured environment and clock: results of
`get_env("CALENDLY_CLIENT_ID")`, `get_env("CALENDLY_CLIENT_SECRET")`
(`None` when unset) and `int(time.time())`. -/
structure Env where
  client_id : Option String
  client_secret : Option String
  now : Int
deriving DecidableEq, Repr

/-- Python truthiness of `get_env`'s `Optional[str]` result: falsy when
unset or the empty string. -/
def strTruthy : Option String → Bool
  | none => false
  | some s => s ≠ ""

/-- The authorization server's response to the single outbound refresh
POST: HTTP status, raw body text, and the result of `response.json()`
(`none` when the body is not valid JSON, in which case `.json()` raises). -/
structure HttpResp where
  status_code : Int
  text : String
  json : Option JDict
deriving DecidableEq, Repr

/-- Python `str(...)` of a JSON scalar, as interpolated into the
`f"Failed to refresh token: {error_detail}"` message. -/
def JVal.toMsg : JVal → String
  | .str s => s
  | .int n => toString n
  | .bool b => if b then "True" else "False"
  | .null => "None"

instance exceptDecEq {ε α : Type} [DecidableEq ε] [DecidableEq α] :
    DecidableEq (Except ε α) := fun a b =>
  match a, b with
  | .error e, .error f =>
      if h : e = f then .isTrue (by rw [h]) else .isFalse (by simp [h])
  | .error _, .ok _ => .isFalse (by simp)
  | .ok _, .error _ => .isFalse (by simp)
  | .ok x, .ok y =>
      if h : x = y then .isTrue (by rw [h]) else .isFalse (by simp [h])

/-- Outcome of a call to `refresh_access_token`: the returned record or
the raised condition, the number of outbound network calls issued, the
store contents after the call, and the number of times the refresh
routine was entered (for the at-most-one-refresh property). -/
structure RefreshOutcome where
  result : Except AuthErr JDict
  networkCalls : Nat
  store : Option JDict
  refreshCalls : Nat
deriving DecidableEq, Repr

/-- `refresh_access_token` (src/utils/calendly_auth.py lines 78-132).
Mirrors the source: raise on a falsy `refresh_token`; raise on missing
client credentials; POST once; on a non-200 status build the error detail
from the JSON body (`error_description`, then `error`, then the raw text;
raw text when the body does not decode) and raise; on 200 decode the
body, stamp `created_at` with the current time, persist via
`save_tokens`, and return the new record. -/
def refresh_access_token (env : Env) (resp : HttpResp) (store : Option JDict)
    (tokens : JDict) : RefreshOutcome :=
  if !truthyOpt (tokens.get? "refresh_token") then
    ⟨.error (.reconnectRequired
      "No refresh token available. Please reconnect Calendly."), 0, store, 1⟩
  else if !strTruthy env.client_id || !strTruthy env.client_secret then
    ⟨.error (.configError
      "CALENDLY_CLIENT_ID and CALENDLY_CLIENT_SECRET must be set"), 0, store, 1⟩
  else
    if resp.status_code ≠ 200 then
      let error_detail : JVal :=
        match resp.json with
        | none => .str resp.text
        | some error_json =>
            error_json.getD "error_description"
              (error_json.getD "error" (.str resp.text))
      ⟨.error (.refreshFailed
        ("Failed to refresh token: " ++ error_detail.toMsg)), 1, store, 1⟩
    else
      match resp.json with
      | none => ⟨.error .jsonDecodeError, 1, store, 1⟩
      | some body =>
          let new_tokens := body.set "created_at" (.int env.now)
          let saved := save_tokens env.now new_tokens
          ⟨.ok new_tokens, 1, some saved.2, 1⟩

/-- Outcome of a call to `get_valid_access_token`: the returned
`access_token` value or the raised condition, the number of outbound
network calls, the store contents after the call, and the number of
refresh attempts made. -/
structure TokenOutcome where
  result : Except AuthErr JVal
  networkCalls : Nat
  store : Option JDict
  refreshCalls : Nat
deriving DecidableEq, Repr

/-- `get_valid_access_token` (src/utils/calendly_auth.py lines 135-162).
Mirrors the source: `load_tokens()`; raise "not connected" when there is
no record or it is empty or lacks `access_token`; refresh when
`is_token_expired`, propagating any refresh failure unchanged; return
`tokens["access_token"]` from the (possibly refreshed) record. -/
def get_valid_access_token (env : Env) (resp : HttpResp)
    (store : Option JDict) : TokenOutcome :=
  match load_tokens store with
  | none =>
      ⟨.error (.notConnected
        "Calendly not connected. Please connect via the web interface first."),
       0, store, 0⟩
  | some tokens =>
      if !tokens.truthy || !tokens.hasKey "access_token" then
        ⟨.error (.notConnected
          "Calendly not connected. Please connect via the web interface first."),
         0, store, 0⟩
      else if is_token_expired env.now tokens then
        let r := refresh_access_token env resp store tokens
        match r.result with
        | .error e => ⟨.error e, r.networkCalls, r.store, r.refreshCalls⟩
        | .ok new_tokens =>
            match new_tokens.get? "access_token" with
            | none => ⟨.error (.keyError "access_token"),
                       r.networkCalls, r.store, r.refreshCalls⟩
            | some v => ⟨.ok v, r.networkCalls, r.store, r.refreshCalls⟩
      else
        match tokens.get? "access_token" with
        | none => ⟨.error (.keyError "access_token"), 0, store, 0⟩
        | some v => ⟨.ok v, 0, store, 0⟩

/-- `get_connection_status` (src/utils/calendly_auth.py lines 165-198),
with `int(time.time())` made the explicit argument `now`. Pure function
of the store and the clock: the embedding gives it no network oracle and
no store output, matching the source, which only reads the file. The
`if created_at and expires_in` branch performs Python arithmetic on the
two values; the embedding covers integer-valued fields (the record
schema's type) and returns `TypeError` for other truthy values, where the
source would raise. -/
def get_connection_status (now : Int) (store : Option JDict) :
    Except String JDict :=
  match load_tokens store with
  | none => .ok [("connected", .bool false), ("reason", .str "No tokens found")]
  | some tokens =>
      if !tokens.truthy || !tokens.hasKey "access_token" then
        .ok [("connected", .bool false), ("reason", .str "No tokens found")]
      else
        let created_at := tokens.get? "created_at"
        let expires_in := tokens.get? "expires_in"
        let status : JDict :=
          [("connected", .bool true),
           ("has_refresh_token", .bool (tokens.hasKey "refresh_token"))]
        if truthyOpt created_at && truthyOpt expires_in then
          match created_at, expires_in with
          | some (.int c), some (.int e) =>
              let expiry_time := c + e
              let time_remaining := expiry_time - now
              .ok ((((status.set "token_expires_at" (.int expiry_time)).set
                      "token_expired" (.bool (time_remaining ≤ 0))).set
                      "seconds_until_expiry" (.int (max 0 time_remaining))).set
                      "minutes_until_expiry" (.int (max 0 (Int.fdiv time_remaining 60))))
          | _, _ => .error "TypeError"
        else .ok status

/-! ## Helper lemmas about the dict model -/

theorem JDict.get?_cons (p : String × JVal) (rest : JDict) (q : String) :
    JDict.get? (p :: rest) q = if p.1 == q then some p.2 else JDict.get? rest q := by
  cases hpq : (p.1 == q) <;> simp [JDict.get?, List.find?_cons, hpq]

theorem JDict.hasKey_cons (p : String × JVal) (rest : JDict) (q : String) :
    JDict.hasKey (p :: rest) q = (p.1 == q || rest.hasKey q) := by
  simp [JDict.hasKey]

theorem JDict.hasKey_eq_isSome (d : JDict) (k : String) :
    d.hasKey k = (d.get? k).isSome := by
  induction d with
  | nil => rfl
  | cons p rest ih =>
      cases hpq : (p.1 == k) <;>
        simp [JDict.hasKey_cons, JDict.get?_cons, hpq, ih]

theorem JDict.get?_eq_none (d : JDict) (k : String) (h : d.hasKey k = false) :
    d.get? k = none := by
  rw [JDict.hasKey_eq_isSome] at h
  cases hg : d.get? k with
  | none => rfl
  | some v => rw [hg] at h; simp at h

theorem JDict.hasKey_of_get?_some (d : JDict) (k : String) (v : JVal)
    (h : d.get? k = some v) : d.hasKey k = true := by
  rw [JDict.hasKey_eq_isSome, h]; rfl

theorem JDict.truthy_of_get?_some (d : JDict) (k : String) (v : JVal)
    (h : d.get? k = some v) : d.truthy = true := by
  cases d with
  | nil => simp [JDict.get?] at h
  | cons p rest => simp [JDict.truthy]

theorem JDict.get?_set_self (d : JDict) (k : String) (v : JVal) :
    (d.set k v).get? k = some v := by
  induction d with
  | nil => simp [JDict.set, JDict.get?]
  | cons p rest ih =>
      cases hp : (p.1 == k) <;>
        simp [JDict.set, hp, JDict.get?_cons, ih]

theorem JDict.get?_set_ne (d : JDict) (k q : String) (v : JVal) (h : q ≠ k) :
    (d.set k v).get? q = d.get? q := by
  induction d with
  | nil =>
      simp [JDict.set, JDict.get?_cons, JDict.get?]
      intro hkq
      exact absurd hkq.symm h
  | cons p rest ih =>
      cases hp : (p.1 == k) <;>
        cases hq : (p.1 == q) <;>
          simp_all [JDict.set, JDict.get?_cons, hp, hq, ih]

theorem JDict.hasKey_set_self (d : JDict) (k : String) (v : JVal) :
    (d.set k v).hasKey k = true :=
  JDict.hasKey_of_get?_some _ _ _ (JDict.get?_set_self d k v)

theorem refresh_refreshCalls (env : Env) (resp : HttpResp) (store : Option JDict)
    (tokens : JDict) :
    (refresh_access_token env resp store tokens).refreshCalls = 1 := by
  unfold refresh_access_token
  split
  · rfl
  · split
    · rfl
    · split
      · rfl
      · split <;> rfl

theorem get_valid_refreshCalls_le_one (env : Env) (resp : HttpResp)
    (store : Option JDict) :
    (get_valid_access_token env resp store).refreshCalls ≤ 1 := by
  unfold get_valid_access_token
  cases store with
  | none => simp [load_tokens]
  | some tokens =>
      simp only [load_tokens]
      split
      · exact Nat.zero_le 1
      · split
        · split
          · simp [refresh_refreshCalls]
          · split <;> simp [refresh_refreshCalls]
        · split <;> exact Nat.zero_le 1

/-! ## The claims -/

/-- Claim C1, amended: for every record in which both `created_at` and
`expires_in` are present as NONZERO integers, `is_token_expired` returns
true exactly when `current_time ≥ created_at + expires_in − 300`. The
claim as stated (for all integer values) fails: the source tests the
fields with `if not created_at or not expires_in`, so a record whose
`created_at` or `expires_in` is the integer `0` — present, but falsy in
Python — takes the optimistic branch and is reported not expired
regardless of the clock. -/
theorem C1_is_token_expired_iff (now c e : Int) (tokens : JDict)
    (hc : tokens.get? "created_at" = some (.int c))
    (he : tokens.get? "expires_in" = some (.int e))
    (hc0 : c ≠ 0) (he0 : e ≠ 0) :
    (is_token_expired now tokens = true ↔ now ≥ c + e - 300) := by
  have ht : tokens.truthy = true := JDict.truthy_of_get?_some _ _ _ hc
  simp [is_token_expired, ht, hc, he, truthyOpt, JVal.truthy, hc0, he0,
    EXPIRY_BUFFER_SECONDS]

/-- Claim C1 counterexample: the record
`{created_at: 0, expires_in: 100}` has both fields present as integers
and `created_at + expires_in = 100` is at or before
`current_time + 300 = 1300`, so the claim requires `is_expired = true`,
yet `is_token_expired` returns `false` (Python `not 0` is true). -/
theorem C1_counterexample :
    (JDict.get? [("created_at", JVal.int 0), ("expires_in", JVal.int 100)]
        "created_at" = some (JVal.int 0))
    ∧ (JDict.get? [("created_at", JVal.int 0), ("expires_in", JVal.int 100)]
        "expires_in" = some (JVal.int 100))
    ∧ ((1000 : Int) ≥ 0 + 100 - 300)
    ∧ is_token_expired 1000
        [("created_at", JVal.int 0), ("expires_in", JVal.int 100)] = false := by
  decide

/-- Claim C1 witness: a record created at `1000000` with lifetime `600`
is expired at clock `1000300` (the buffer boundary). -/
theorem C1_witness :
    is_token_expired 1000300
      [("created_at", JVal.int 1000000), ("expires_in", JVal.int 600)] = true :=
  (C1_is_token_expired_iff 1000300 1000000 600
      [("created_at", JVal.int 1000000), ("expires_in", JVal.int 600)]
      (by decide) (by decide) (by decide) (by decide)).mpr (by decide)

/-- Claim C2, amended: for every NON-EMPTY record from which
`created_at` or `expires_in` is absent, `is_token_expired` returns false
regardless of any other field present in the record. The claim as stated
(for every record) fails on the empty record: the source begins with
`if not tokens: return True`, so the empty dict — from which both fields
are absent — is reported expired, not "not expired". -/
theorem C2_missing_not_expired (now : Int) (tokens : JDict)
    (hne : tokens ≠ [])
    (h : tokens.hasKey "created_at" = false
         ∨ tokens.hasKey "expires_in" = false) :
    is_token_expired now tokens = false := by
  have ht : tokens.truthy = true := by
    cases tokens with
    | nil => exact absurd rfl hne
    | cons p rest => rfl
  rcases h with h | h
  · have hn := JDict.get?_eq_none _ _ h
    simp [is_token_expired, ht, hn, truthyOpt]
  · have hn := JDict.get?_eq_none _ _ h
    simp [is_token_expired, ht, hn, truthyOpt]

/-- Claim C2 counterexample: the empty record lacks `created_at`, yet
`is_token_expired` returns `true` on it, not `false`. -/
theorem C2_counterexample :
    (JDict.hasKey [] "created_at" = false)
    ∧ is_token_expired 1000 ([] : JDict) = true := by
  decide

/-- Claim C2 witness: a non-empty record with no expiry info is reported
not expired. -/
theorem C2_witness :
    is_token_expired 5 [("access_token", JVal.str "A")] = false :=
  C2_missing_not_expired 5 [("access_token", JVal.str "A")]
    (by decide) (Or.inl (by decide))

/-- Claim C3: when the store holds no record or the stored record lacks
an `access_token` key, `get_valid_access_token` fails with the
"not connected" condition whose message instructs the caller to complete
authorization via the external web flow, performs no refresh attempt, no
network call, and leaves the store unchanged. -/
theorem C3_not_connected (env : Env) (resp : HttpResp) (store : Option JDict)
    (h : store = none ∨ ∃ d, store = some d ∧ d.hasKey "access_token" = false) :
    get_valid_access_token env resp store
      = ⟨.error (.notConnected
          "Calendly not connected. Please connect via the web interface first."),
         0, store, 0⟩ := by
  rcases h with h | ⟨d, hd, hk⟩
  · subst h; rfl
  · subst hd
    simp [get_valid_access_token, load_tokens, hk]

/-- Claim C3 witness: on an empty store the call fails with the
"not connected" message and does nothing else. -/
theorem C3_witness :
    get_valid_access_token ⟨none, none, 0⟩ ⟨200, "", none⟩ none
      = ⟨.error (.notConnected
          "Calendly not connected. Please connect via the web interface first."),
         0, none, 0⟩ :=
  C3_not_connected ⟨none, none, 0⟩ ⟨200, "", none⟩ none (Or.inl rfl)

/-- Claim C4: for a loaded record that passes the connection guard,
`get_valid_access_token` enters the refresh routine exactly when
`is_token_expired` holds of the record; when the record is not expired
it returns the stored `access_token` value with zero network calls and
an unchanged store; and on every input whatsoever the call makes at most
one refresh attempt (it never loops or retries). -/
theorem C4_refresh_iff_expired (env : Env) (resp : HttpResp)
    (store : Option JDict) (tokens : JDict) (v : JVal)
    (hs : store = some tokens)
    (hv : tokens.get? "access_token" = some v) :
    ((get_valid_access_token env resp store).refreshCalls
        = if is_token_expired env.now tokens then 1 else 0)
    ∧ (is_token_expired env.now tokens = false →
        get_valid_access_token env resp store = ⟨.ok v, 0, store, 0⟩)
    ∧ (∀ (e2 : Env) (r2 : HttpResp) (s2 : Option JDict),
        (get_valid_access_token e2 r2 s2).refreshCalls ≤ 1) := by
  subst hs
  have ht : tokens.truthy = true := JDict.truthy_of_get?_some _ _ _ hv
  have hk : tokens.hasKey "access_token" = true :=
    JDict.hasKey_of_get?_some _ _ _ hv
  refine ⟨?_, ?_, fun e2 r2 s2 => get_valid_refreshCalls_le_one e2 r2 s2⟩
  · by_cases hexp : is_token_expired env.now tokens = true
    · simp [get_valid_access_token, load_tokens, ht, hk, hexp,
        refresh_refreshCalls]
      split
      · rfl
      · split <;> rfl
    · simp only [Bool.not_eq_true] at hexp
      simp [get_valid_access_token, load_tokens, ht, hk, hexp, hv]
  · intro hexp
    simp [get_valid_access_token, load_tokens, ht, hk, hexp, hv]

/-- Claim C4 witness: the record
`{access_token: "A1", refresh_token: "R1", created_at: 1000000,
expires_in: 3600}` read at clock `1000100` (the claim's `T+100`) yields
`"A1"` with zero network calls, zero refresh attempts, and an unchanged
store. -/
theorem C4_witness :
    get_valid_access_token ⟨some "id", some "sec", 1000100⟩ ⟨200, "", none⟩
      (some [("access_token", JVal.str "A1"), ("refresh_token", JVal.str "R1"),
             ("created_at", JVal.int 1000000), ("expires_in", JVal.int 3600)])
      = ⟨.ok (JVal.str "A1"), 0,
         some [("access_token", JVal.str "A1"), ("refresh_token", JVal.str "R1"),
               ("created_at", JVal.int 1000000), ("expires_in", JVal.int 3600)],
         0⟩ :=
  (C4_refresh_iff_expired ⟨some "id", some "sec", 1000100⟩ ⟨200, "", none⟩ _ _
      (JVal.str "A1") rfl (by decide)).2.1 (by decide)

/-- Claim C5: on a successful (HTTP 200, JSON body) refresh response,
`refresh_access_token` stamps the new record with the current time as
`created_at`, persists exactly that record via `save_tokens` (fully
replacing whatever the store held), and returns it; moreover, wired
through `get_valid_access_token` on an expired stored record, the call
returns the new response's `access_token` and the persisted record's
`created_at` equals the clock at refresh time. -/
theorem C5_refresh_success (env : Env) (resp : HttpResp) (store : Option JDict)
    (tokens body : JDict)
    (hrt : truthyOpt (tokens.get? "refresh_token") = true)
    (hid : strTruthy env.client_id = true)
    (hsec : strTruthy env.client_secret = true)
    (hst : resp.status_code = 200) (hbody : resp.json = some body) :
    (refresh_access_token env resp store tokens
        = ⟨.ok (body.set "created_at" (.int env.now)), 1,
           some (body.set "created_at" (.int env.now)), 1⟩)
    ∧ (body.set "created_at" (.int env.now)).get? "created_at"
        = some (.int env.now)
    ∧ (∀ a : JVal, store = some tokens →
        tokens.hasKey "access_token" = true →
        is_token_expired env.now tokens = true →
        JDict.get? body "access_token" = some a →
        get_valid_access_token env resp store
          = ⟨.ok a, 1, some (body.set "created_at" (.int env.now)), 1⟩) := by
  have hnew := JDict.get?_set_self body "created_at" (.int env.now)
  have hmain : refresh_access_token env resp store tokens
      = ⟨.ok (body.set "created_at" (.int env.now)), 1,
         some (body.set "created_at" (.int env.now)), 1⟩ := by
    simp [refresh_access_token, hrt, hid, hsec, hst, hbody, save_tokens,
      JDict.hasKey_set_self]
  refine ⟨hmain, hnew, ?_⟩
  intro a hs hk hexp ha
  subst hs
  have ht : tokens.truthy = true := by
    cases hg : tokens.get? "refresh_token" with
    | none => rw [hg] at hrt; simp [truthyOpt] at hrt
    | some r => exact JDict.truthy_of_get?_some _ _ _ hg
  simp [get_valid_access_token, load_tokens, ht, hk, hexp, hmain,
    JDict.get?_set_ne body "created_at" "access_token" (.int env.now)
      (by decide),
    ha]

/-- Claim C5 witness: the claim's scenario. The stored record was created
at `1000000` with lifetime `3600`; at clock `1003500` (inside the 300s
buffer) a refresh against a mocked 200 response
`{access_token: "A2", expires_in: 3600}` returns the new record stamped
with `created_at = 1003500`, and persists exactly that record. -/
theorem C5_witness :
    refresh_access_token ⟨some "id", some "sec", 1003500⟩
      ⟨200, "",
       some [("access_token", JVal.str "A2"), ("expires_in", JVal.int 3600)]⟩
      (some [("access_token", JVal.str "A1"), ("refresh_token", JVal.str "R1"),
             ("created_at", JVal.int 1000000), ("expires_in", JVal.int 3600)])
      [("access_token", JVal.str "A1"), ("refresh_token", JVal.str "R1"),
       ("created_at", JVal.int 1000000), ("expires_in", JVal.int 3600)]
      = ⟨.ok [("access_token", JVal.str "A2"), ("expires_in", JVal.int 3600),
              ("created_at", JVal.int 1003500)], 1,
         some [("access_token", JVal.str "A2"), ("expires_in", JVal.int 3600),
               ("created_at", JVal.int 1003500)], 1⟩ :=
  ((C5_refresh_success ⟨some "id", some "sec", 1003500⟩
      ⟨200, "",
       some [("access_token", JVal.str "A2"), ("expires_in", JVal.int 3600)]⟩
      (some [("access_token", JVal.str "A1"), ("refresh_token", JVal.str "R1"),
             ("created_at", JVal.int 1000000), ("expires_in", JVal.int 3600)])
      [("access_token", JVal.str "A1"), ("refresh_token", JVal.str "R1"),
       ("created_at", JVal.int 1000000), ("expires_in", JVal.int 3600)]
      [("access_token", JVal.str "A2"), ("expires_in", JVal.int 3600)]
      (by decide) (by decide) (by decide) rfl rfl).1).trans (by decide)

/-- Claim C6: `refresh_access_token` applied to a record from which
`refresh_token` is absent fails with the distinct "reconnect required"
condition, issues no network call, and leaves the stored record
unmodified. -/
theorem C6_reconnect_required (env : Env) (resp : HttpResp)
    (store : Option JDict) (tokens : JDict)
    (h : tokens.hasKey "refresh_token" = false) :
    refresh_access_token env resp store tokens
      = ⟨.error (.reconnectRequired
          "No refresh token available. Please reconnect Calendly."),
         0, store, 1⟩ := by
  have hn := JDict.get?_eq_none _ _ h
  simp [refresh_access_token, hn, truthyOpt]

/-- Claim C6 witness: refreshing a record holding only an access token
fails with "reconnect required", zero network calls, store untouched. -/
theorem C6_witness :
    refresh_access_token ⟨none, none, 0⟩ ⟨200, "", none⟩ none
      [("access_token", JVal.str "A")]
      = ⟨.error (.reconnectRequired
          "No refresh token available. Please reconnect Calendly."),
         0, none, 1⟩ :=
  C6_reconnect_required ⟨none, none, 0⟩ ⟨200, "", none⟩ none
    [("access_token", JVal.str "A")] (by decide)

/-- Claim C7: when the authorization server answers the refresh request
with a non-success HTTP status, `refresh_access_token` fails with a
"refresh failed" condition whose message contains the error description
extracted from the JSON error body when present
(`"Failed to refresh token: " ++ description`), and falls back to the
raw response text when the body is not JSON. -/
theorem C7_refresh_failed (env : Env) (resp : HttpResp) (store : Option JDict)
    (tokens : JDict)
    (hrt : truthyOpt (tokens.get? "refresh_token") = true)
    (hid : strTruthy env.client_id = true)
    (hsec : strTruthy env.client_secret = true)
    (hst : resp.status_code ≠ 200) :
    (resp.json = none →
      refresh_access_token env resp store tokens
        = ⟨.error (.refreshFailed ("Failed to refresh token: " ++ resp.text)),
           1, store, 1⟩)
    ∧ (∀ (j : JDict) (d : String), resp.json = some j →
        j.get? "error_description" = some (.str d) →
        refresh_access_token env resp store tokens
          = ⟨.error (.refreshFailed ("Failed to refresh token: " ++ d)),
             1, store, 1⟩) := by
  constructor
  · intro hj
    simp [refresh_access_token, hrt, hid, hsec, hst, hj, JVal.toMsg]
  · intro j d hj hd
    simp [refresh_access_token, hrt, hid, hsec, hst, hj, JDict.getD, hd,
      JVal.toMsg]

/-- Claim C7 witness: the claim's scenario. An HTTP 400 answer with body
`{error: "invalid_grant", error_description: "token revoked"}` makes the
refresh fail with the message
`"Failed to refresh token: token revoked"`, which contains
`"token revoked"`. -/
theorem C7_witness :
    refresh_access_token ⟨some "id", some "sec", 500⟩
      ⟨400, "raw", some [("error", JVal.str "invalid_grant"),
                         ("error_description", JVal.str "token revoked")]⟩
      none [("refresh_token", JVal.str "R1")]
      = ⟨.error (.refreshFailed "Failed to refresh token: token revoked"),
         1, none, 1⟩ :=
  ((C7_refresh_failed ⟨some "id", some "sec", 500⟩
      ⟨400, "raw", some [("error", JVal.str "invalid_grant"),
                         ("error_description", JVal.str "token revoked")]⟩
      none [("refresh_token", JVal.str "R1")]
      (by decide) (by decide) (by decide) (by decide)).2
    [("error", JVal.str "invalid_grant"),
     ("error_description", JVal.str "token revoked")]
    "token revoked" rfl (by decide)).trans (by decide)

/-- Claim C8, amended: for every token payload, `save_tokens` followed by
`load_tokens` returns a record equal to the input with `created_at`
populated with the write-time clock value if the KEY was omitted; when
the `created_at` key is already present the round-trip is the identity;
and the `created_at` key is never ABSENT from a saved record. The
claim's stronger "never left null" fails: the source only tests key
presence (`if "created_at" not in tokens`), so a caller-supplied
`created_at: null` is persisted verbatim. -/
theorem C8_save_load_roundtrip (now : Int) (tokens : JDict) :
    (tokens.hasKey "created_at" = false →
      load_tokens (some (save_tokens now tokens).2)
        = some (tokens.set "created_at" (.int now))
      ∧ (save_tokens now tokens).2.get? "created_at" = some (.int now))
    ∧ (tokens.hasKey "created_at" = true →
      load_tokens (some (save_tokens now tokens).2) = some tokens)
    ∧ (save_tokens now tokens).2.hasKey "created_at" = true := by
  refine ⟨?_, ?_, ?_⟩
  · intro h
    constructor
    · simp [load_tokens, save_tokens, h]
    · simp [save_tokens, h, JDict.get?_set_self]
  · intro h
    simp [load_tokens, save_tokens, h]
  · by_cases h : tokens.hasKey "created_at" = true
    · simp [save_tokens, h]
    · have hf : tokens.hasKey "created_at" = false := by simpa using h
      simp [save_tokens, hf, JDict.hasKey_set_self]

/-- Claim C8 counterexample: saving a payload whose `created_at` key is
present with value `null` leaves the saved record's `created_at` null —
the claim's "created_at is never left null in a saved record" is false. -/
theorem C8_counterexample :
    (save_tokens 99 [("access_token", JVal.str "A"),
        ("created_at", JVal.null)]).2
      = [("access_token", JVal.str "A"), ("created_at", JVal.null)]
    ∧ JDict.get? (save_tokens 99 [("access_token", JVal.str "A"),
        ("created_at", JVal.null)]).2 "created_at" = some JVal.null := by
  decide

/-- Claim C8 witness: saving a payload without `created_at` at clock `42`
and loading returns the input with `created_at = 42` appended. -/
theorem C8_witness :
    load_tokens (some (save_tokens 42 [("access_token", JVal.str "A")]).2)
      = some [("access_token", JVal.str "A"), ("created_at", JVal.int 42)] :=
  (((C8_save_load_roundtrip 42 [("access_token", JVal.str "A")]).1
      (by decide)).1).trans (by decide)

/-- Claim C9, amended: `get_connection_status` is a pure function of the
store and the clock (the embedding gives it no network oracle and no
store output, so it cannot mutate state or call the network). With no
record or a record lacking `access_token` it reports not-connected with
a reason string; otherwise it reports `connected = true` and whether a
refresh token is present, and includes the absolute expiry timestamp, a
strict (unbuffered) already-expired boolean, and seconds/minutes
remaining floored at zero exactly when both `created_at` and
`expires_in` are present AND NONZERO (truthy). The claim's "exactly when
both are present" fails: the source gates the expiry block with
`if created_at and expires_in`, so a present-but-zero value suppresses
it. -/
theorem C9_connection_status (now : Int) (tokens : JDict) (v : JVal)
    (hv : tokens.get? "access_token" = some v) :
    (get_connection_status now none
        = .ok [("connected", .bool false), ("reason", .str "No tokens found")])
    ∧ (∀ d : JDict, d.hasKey "access_token" = false →
        get_connection_status now (some d)
          = .ok [("connected", .bool false),
                 ("reason", .str "No tokens found")])
    ∧ (∀ c e : Int, tokens.get? "created_at" = some (.int c) →
        tokens.get? "expires_in" = some (.int e) → c ≠ 0 → e ≠ 0 →
        get_connection_status now (some tokens)
          = .ok [("connected", .bool true),
                 ("has_refresh_token", .bool (tokens.hasKey "refresh_token")),
                 ("token_expires_at", .int (c + e)),
                 ("token_expired", .bool (now ≥ c + e)),
                 ("seconds_until_expiry", .int (max 0 (c + e - now))),
                 ("minutes_until_expiry",
                  .int (max 0 (Int.fdiv (c + e - now) 60)))])
    ∧ ((truthyOpt (tokens.get? "created_at") = false
        ∨ truthyOpt (tokens.get? "expires_in") = false) →
        get_connection_status now (some tokens)
          = .ok [("connected", .bool true),
                 ("has_refresh_token",
                  .bool (tokens.hasKey "refresh_token"))]) := by
  have ht : tokens.truthy = true := JDict.truthy_of_get?_some _ _ _ hv
  have hk : tokens.hasKey "access_token" = true :=
    JDict.hasKey_of_get?_some _ _ _ hv
  refine ⟨rfl, ?_, ?_, ?_⟩
  · intro d hd
    simp [get_connection_status, load_tokens, hd]
  · intro c e hc he hc0 he0
    have hiff : (c + e - now ≤ 0) ↔ (now ≥ c + e) := by omega
    simp [get_connection_status, load_tokens, ht, hk, hc, he, truthyOpt,
      JVal.truthy, hc0, he0, JDict.set, hiff]
  · intro h
    rcases h with h | h <;>
      simp [get_connection_status, load_tokens, ht, hk, h]

/-- Claim C9 counterexample: a record with `access_token` present,
`created_at = 0` and `expires_in = 3600` — both keys present as
integers — yields a status WITHOUT the expiry fields, refuting "exactly
when both created_at and expires_in are present". -/
theorem C9_counterexample :
    get_connection_status 1000
      (some [("access_token", JVal.str "A"), ("created_at", JVal.int 0),
             ("expires_in", JVal.int 3600)])
      = .ok [("connected", JVal.bool true),
             ("has_refresh_token", JVal.bool false)]
    ∧ JDict.hasKey [("access_token", JVal.str "A"), ("created_at", JVal.int 0),
        ("expires_in", JVal.int 3600)] "created_at" = true
    ∧ JDict.hasKey [("access_token", JVal.str "A"), ("created_at", JVal.int 0),
        ("expires_in", JVal.int 3600)] "expires_in" = true := by
  decide

/-- Claim C9 witness: a connected record created at `1000000` with
lifetime `2000` queried at clock `1003000` reports expiry at `1002000`,
already-expired true, and zero (not negative) seconds and minutes
remaining. -/
theorem C9_witness :
    get_connection_status 1003000
      (some [("access_token", JVal.str "A"), ("refresh_token", JVal.str "R"),
             ("created_at", JVal.int 1000000), ("expires_in", JVal.int 2000)])
      = .ok [("connected", JVal.bool true),
             ("has_refresh_token", JVal.bool true),
             ("token_expires_at", JVal.int 1002000),
             ("token_expired", JVal.bool true),
             ("seconds_until_expiry", JVal.int 0),
             ("minutes_until_expiry", JVal.int 0)] :=
  ((C9_connection_status 1003000
      [("access_token", JVal.str "A"), ("refresh_token", JVal.str "R"),
       ("created_at", JVal.int 1000000), ("expires_in", JVal.int 2000)]
      (JVal.str "A") (by decide)).2.2.1 1000000 2000
    (by decide) (by decide) (by decide) (by decide)).trans (by decide)

/-- Claim C10: `save_tokens` mutates its input argument in place — the
caller's own mapping after the call (first component of the embedding's
result) gains a `created_at` key bound to the write-time clock value
when the key was absent, is left unmodified when `created_at` was
already present, and is in every case identical to the record the store
persisted (the store writes the caller's mapping, not a copy). -/
theorem C10_save_mutates_input (now : Int) (tokens : JDict) :
    (tokens.hasKey "created_at" = false →
      (save_tokens now tokens).1 = tokens.set "created_at" (.int now)
      ∧ (save_tokens now tokens).1.get? "created_at" = some (.int now))
    ∧ (tokens.hasKey "created_at" = true → (save_tokens now tokens).1 = tokens)
    ∧ (save_tokens now tokens).1 = (save_tokens now tokens).2 := by
  refine ⟨?_, ?_, rfl⟩
  · intro h
    exact ⟨by simp [save_tokens, h],
           by simp [save_tokens, h, JDict.get?_set_self]⟩
  · intro h
    simp [save_tokens, h]

/-- Claim C10 witness: saving `{access_token: "A"}` at clock `42` leaves
the caller's mapping equal to
`{access_token: "A", created_at: 42}`. -/
theorem C10_witness :
    (save_tokens 42 [("access_token", JVal.str "A")]).1
      = [("access_token", JVal.str "A"), ("created_at", JVal.int 42)] :=
  (((C10_save_mutates_input 42 [("access_token", JVal.str "A")]).1
      (by decide)).1).trans (by decide)

end CalendlyAuth
